import Mathlib

/- Verification of the multi-session WhatsApp automation server
   (src/index.ts of UnprojectAI/echo-whatsapp-server).

   The source file contains two near-duplicate variants of the server,
   concatenated back to back; definitions suffixed V1 (lines 1-360) and
   V2 (lines 361-601) embed the corresponding handler of each variant.
   Handlers that are textually identical in both variants (the
   send-message endpoint, the sessions listing, the session DELETE
   endpoint, the address normalization) are embedded once.

   Embedding choices:
   - the JS `Map<string, Client>` registry is an association list with
     unique keys; `Map.get/set/delete/has` become mapGet/mapSet/
     mapDelete/mapHas;
   - a whatsapp-web.js `Client` is embedded as the record of what the
     server observes of it: `info` (set by the engine once the session
     is ready, read by the server), the engine's sendMessage behaviour
     as a function of (formatted recipient, body), and whether the
     engine's `destroy()` promise rejects (`destroyFailure`);
   - JS `String.prototype.includes` is substring containment over the
     character list; the empty string is the only falsy string;
   - each socket / event-callback handler is a pure function from the
     registry (and its other inputs) to the new registry, the list of
     `io.emit` / `socket.emit` events it produces, and an observation
     record for best-effort teardown (was `client.destroy()` called, was
     a rejection logged by an attached `.catch`, or left unhandled).
     Every handler body between two `await` points is synchronous JS on
     a single thread, so it is faithfully one atomic step function. -/

/-- Character-list helper: does the first list start with the second. -/
def startsWithL : List Char → List Char → Bool
  | _, [] => true
  | [], _ :: _ => false
  | a :: as, b :: bs => a == b && startsWithL as bs

/-- Substring containment over character lists: the semantics of the JS
`hay.includes(needle)` test used by the source for address normalization. -/
def containsL : List Char → List Char → Bool
  | [], needle => needle.isEmpty
  | a :: t, needle => startsWithL (a :: t) needle || containsL t needle

/-- JS `a.includes(b)`: substring containment. -/
def strIncludes (a b : String) : Bool := containsL a.toList b.toList

/-- Spec-language helper (not from the source): `a` ends with `b`.  Used to
state the suffix-based claims about normalization. -/
def strEndsWith (a b : String) : Bool := startsWithL a.toList.reverse b.toList.reverse

/-- JS falsiness of a string value: only the empty string is falsy. -/
def strFalsy (s : String) : Bool := s.toList.isEmpty

/-- The part of `client.info` the server reads (`info.wid.user`): the
account identity, present exactly once the engine has reached ready. -/
structure WInfo where
  user : String
  deriving Repr, DecidableEq

/-- Result of the engine's `client.sendMessage` call: either a resolved
message (the server reads `response.id`) or a rejection with a reason. -/
inductive EngineSendResult where
  | sendOk (messageId : String)
  | sendError (reason : String)
  deriving Repr, DecidableEq

/-- A whatsapp-web.js `Client` as observed by the server: `info` is absent
until the engine reaches ready; `engineSend` is the engine's response to a
sendMessage call with a given formatted recipient and body; `destroyFailure`
is `some reason` when the engine's `destroy()` promise rejects. -/
structure WClient where
  info : Option WInfo
  engineSend : String → String → EngineSendResult
  destroyFailure : Option String

/-- The `clients : Map<string, Client>` registry, keys unique. -/
abbrev Registry := List (String × WClient)

/-- JS `Map.get`. -/
def mapGet {α : Type} : List (String × α) → String → Option α
  | [], _ => none
  | (k, v) :: t, x => if k = x then some v else mapGet t x

/-- JS `Map.has`. -/
def mapHas {α : Type} (m : List (String × α)) (x : String) : Bool :=
  (mapGet m x).isSome

/-- JS `Map.set`: replace in place if the key is present, append otherwise. -/
def mapSet {α : Type} : List (String × α) → String → α → List (String × α)
  | [], x, v => [(x, v)]
  | (k, w) :: t, x, v => if k = x then (x, v) :: t else (k, w) :: mapSet t x v

/-- JS `Map.delete`. -/
def mapDelete {α : Type} : List (String × α) → String → List (String × α)
  | [], _ => []
  | (k, w) :: t, x => if k = x then t else (k, w) :: mapDelete t x

/-- Number of registry entries stored under a key. -/
def countKey {α : Type} (m : List (String × α)) (x : String) : Nat :=
  (m.filter (fun p => p.1 == x)).length

/-- A socket.io emission: `socket.emit(name)` or `socket.emit(name, payload)`
with a string payload. -/
inductive SockEvent where
  | named (name : String)
  | withPayload (name payload : String)
  deriving Repr, DecidableEq

/-- Which branch of the `create_session` handler ran. -/
inductive CreateOutcome where
  | created
  | alreadyExists
  deriving Repr, DecidableEq

/-- Observation of the best-effort engine teardown performed by a handler:
whether `client.destroy()` was called, whether a rejection of it was logged
by an attached `.catch`, and whether a rejection was left unhandled. -/
structure TeardownObs where
  teardownAttempted : Bool
  failureLogged : Bool
  unhandledFailure : Bool
  deriving Repr, DecidableEq

/-- Response of the DELETE `/api/session/:clientId` endpoint. -/
structure DestroyResponse where
  status : Nat
  success : Bool
  error : Option String
  deriving Repr, DecidableEq

/-- Response of the POST `/api/send-message` endpoint.  `missingFields` is
the 400 required-fields response, `notFoundErr` the 404 unknown-client
response, `notReadyErr` the 400 not-initialized response, `sent` the 200
success response carrying `response.id`, `sendFailure` the 500 response
carrying the engine error message. -/
inductive SendResponse where
  | missingFields
  | notFoundErr
  | notReadyErr
  | sent (messageId : String)
  | sendFailure (reason : String)
  deriving Repr, DecidableEq

/-- `formattedNumber` in POST `/api/send-message` (index.ts:264, 563):
`to.includes('@c.us') ? to : to + '@c.us'`. -/
def formattedNumber (toAddr : String) : String :=
  if strIncludes toAddr "@c.us" then toAddr else toAddr ++ "@c.us"

/-- `formattedNumber` in POST `/api/chat-history` (index.ts:329): the same
containment-based normalization applied to `phoneNumber`. -/
def historyFormattedNumber (phoneNumber : String) : String :=
  if strIncludes phoneNumber "@c.us" then phoneNumber else phoneNumber ++ "@c.us"

/-- The `phoneNumber` field of the inbound-message republication
(index.ts:165, 485): the same containment-based normalization applied to
`message.from`. -/
def inboundPhoneNumber (msgFrom : String) : String :=
  if strIncludes msgFrom "@c.us" then msgFrom else msgFrom ++ "@c.us"

/-- Variant 1 `create_session` socket handler (index.ts:195-222): if the id
is absent, build a client, insert it and begin initialization; otherwise
leave the registry alone, emit the event named
`error_<id>_Session already exists` and, when the existing client has
`info` set, also emit `ready_<id>`.  `newClient` is the client that
`createWhatsAppClient` would build. -/
def createSessionV1 (newClient : WClient) (m : Registry) (clientId : String) :
    Registry × CreateOutcome × List SockEvent :=
  if !(mapHas m clientId) then
    (mapSet m clientId newClient, CreateOutcome.created, [])
  else
    let readyEmit := match mapGet m clientId with
      | some c => c.info.isSome
      | none => false
    (m, CreateOutcome.alreadyExists,
      SockEvent.named ("error_" ++ clientId ++ "_Session already exists") ::
        (if readyEmit then [SockEvent.named ("ready_" ++ clientId)] else []))

/-- Variant 2 `create_session` socket handler (index.ts:500-521): if the id
is absent, build-insert-initialize as in variant 1; the `else if
(clients.has(clientId))` branch only logs the existing client's info status
server-side and emits nothing; the final `else` branch (which would emit
`ready_<id>`) is unreachable because the else-if condition is the negation
of the if condition. -/
def createSessionV2 (newClient : WClient) (m : Registry) (clientId : String) :
    Registry × CreateOutcome × List SockEvent :=
  if !(mapHas m clientId) then
    (mapSet m clientId newClient, CreateOutcome.created, [])
  else if mapHas m clientId then
    (m, CreateOutcome.alreadyExists, [])
  else
    (m, CreateOutcome.alreadyExists,
      match mapGet m clientId with
      | some c => if c.info.isSome then [SockEvent.named ("ready_" ++ clientId)] else []
      | none => [])

/-- Variant 1 `client.on('disconnected')` handler (index.ts:144-156): delete
the registry entry only when the reason is LOGOUT or UNPAIRED, and always
publish the reason on `disconnected_<id>`. -/
def disconnectedHandlerV1 (m : Registry) (clientId reason : String) :
    Registry × List SockEvent :=
  let m2 := if reason = "LOGOUT" || reason = "UNPAIRED" then mapDelete m clientId else m
  (m2, [SockEvent.withPayload ("disconnected_" ++ clientId) reason])

/-- Variant 2 `client.on('disconnected')` handler (index.ts:471-477): delete
the registry entry unconditionally, whatever the reason, then publish the
reason on `disconnected_<id>`. -/
def disconnectedHandlerV2 (m : Registry) (clientId reason : String) :
    Registry × List SockEvent :=
  (mapDelete m clientId, [SockEvent.withPayload ("disconnected_" ++ clientId) reason])

/-- Variant 1 `client.on('auth_failure')` handler (index.ts:129-142): emit
the error, delete the registry entry, call `client.destroy()` with a
logging `.catch` attached. -/
def authFailureHandlerV1 (m : Registry) (clientId : String) (client : WClient) :
    Registry × List SockEvent × TeardownObs :=
  (mapDelete m clientId,
   [SockEvent.withPayload ("error_" ++ clientId) "Authentication failed. Please try again."],
   { teardownAttempted := true,
     failureLogged := client.destroyFailure.isSome,
     unhandledFailure := false })

/-- Variant 1 `client.on('qr_max_retries')` handler (index.ts:104-118):
delete the registry entry, emit the error, call `client.destroy()` with a
logging `.catch` attached. -/
def qrMaxRetriesHandlerV1 (m : Registry) (clientId : String) (client : WClient) :
    Registry × List SockEvent × TeardownObs :=
  (mapDelete m clientId,
   [SockEvent.withPayload ("error_" ++ clientId)
      "Maximum QR code retries reached. Session removed."],
   { teardownAttempted := true,
     failureLogged := client.destroyFailure.isSome,
     unhandledFailure := false })

/-- Variant 1 `initialize().catch` callback (index.ts:201-209): emit the
error, delete the registry entry, call `client.destroy()` with a logging
`.catch` attached. -/
def initErrorHandlerV1 (m : Registry) (clientId : String) (client : WClient) :
    Registry × List SockEvent × TeardownObs :=
  (mapDelete m clientId,
   [SockEvent.withPayload ("error_" ++ clientId) "Failed to initialize WhatsApp client"],
   { teardownAttempted := true,
     failureLogged := client.destroyFailure.isSome,
     unhandledFailure := false })

/-- Variant 2 `initialize().catch` callback (index.ts:505-508): log and emit
the error only — the registry entry is not deleted and no teardown is
attempted. -/
def initErrorHandlerV2 (m : Registry) (clientId : String) (_client : WClient) :
    Registry × List SockEvent × TeardownObs :=
  (m,
   [SockEvent.withPayload ("error_" ++ clientId) "Failed to initialize WhatsApp client"],
   { teardownAttempted := false, failureLogged := false, unhandledFailure := false })

/-- DELETE `/api/session/:clientId` endpoint (identical in both variants,
index.ts:285-296 and 584-595): when the client is present, call
`client.destroy()` with NO `.catch` attached (a rejection is unhandled),
delete the registry entry and answer `{success:true}`; otherwise answer 404
`{success:false}` and leave the registry untouched. -/
def deleteSessionEndpoint (m : Registry) (clientId : String) :
    Registry × DestroyResponse × TeardownObs :=
  match mapGet m clientId with
  | some c =>
      (mapDelete m clientId,
       { status := 200, success := true, error := none },
       { teardownAttempted := true,
         failureLogged := false,
         unhandledFailure := c.destroyFailure.isSome })
  | none =>
      (m,
       { status := 404, success := false, error := some "Session not found" },
       { teardownAttempted := false, failureLogged := false, unhandledFailure := false })

/-- POST `/api/send-message` endpoint (identical in both variants,
index.ts:234-275 and 533-574): reject missing (falsy) fields with 400, an
unknown client with 404, a client without `info` with 400, then send to the
normalized recipient and answer 200 with the message id, or 500 with the
engine error message when the engine send rejects. -/
def sendMessageHandler (m : Registry) (clientId toAddr msg : String) : SendResponse :=
  if strFalsy clientId || strFalsy toAddr || strFalsy msg then
    SendResponse.missingFields
  else
    match mapGet m clientId with
    | none => SendResponse.notFoundErr
    | some c =>
      match c.info with
      | none => SendResponse.notReadyErr
      | some _ =>
        match c.engineSend (formattedNumber toAddr) msg with
        | EngineSendResult.sendOk mid => SendResponse.sent mid
        | EngineSendResult.sendError r => SendResponse.sendFailure r

/-- GET `/api/sessions` endpoint (identical in both variants,
index.ts:277-283 and 576-582): one entry per registry entry, with status
connected exactly when `client.info` is set. -/
def listSessions (m : Registry) : List (String × String) :=
  m.map (fun p => (p.1, if p.2.info.isSome then "connected" else "disconnected"))

/-- The engine's ready transition as observed by the server: whatsapp-web.js
sets `client.info` once the session is ready (the server only ever reads
it, at index.ts:122, 214, 255, 280, ...).  This updates the stored client's
`info` field in place. -/
def engineSetInfo (m : Registry) (clientId : String) (i : WInfo) : Registry :=
  match m with
  | [] => []
  | (k, c) :: t =>
      if k = clientId then (k, { c with info := some i }) :: t
      else (k, c) :: engineSetInfo t clientId i

/-- A ready demo client (used by concrete witnesses and counterexamples). -/
def demoClient : WClient :=
  { info := some { user := "19995550100" },
    engineSend := fun _ _ => EngineSendResult.sendOk "mid-1",
    destroyFailure := none }

/-- A freshly created, not yet initialized client. -/
def demoFresh : WClient :=
  { info := none,
    engineSend := fun _ _ => EngineSendResult.sendError "not ready",
    destroyFailure := none }

/-- A second fresh client, distinct role from demoFresh in two-create runs. -/
def demoFresh2 : WClient :=
  { info := none,
    engineSend := fun _ _ => EngineSendResult.sendError "not ready",
    destroyFailure := none }

/-- A registry holding the ready demo client under id A. -/
def demoRegistry : Registry := [("A", demoClient)]

/-- A ready client whose engine accepts exactly the recipient 15@c.usy. -/
def pickyClient : WClient :=
  { info := some { user := "19995550101" },
    engineSend := fun n _ =>
      if n = "15@c.usy" then EngineSendResult.sendOk "mid-2"
      else EngineSendResult.sendError "invalid recipient",
    destroyFailure := none }

/-- A registry holding the picky client under id P. -/
def pickyRegistry : Registry := [("P", pickyClient)]

/-- A ready client whose engine `destroy()` rejects. -/
def failClient : WClient :=
  { info := some { user := "18885550102" },
    engineSend := fun _ _ => EngineSendResult.sendError "offline",
    destroyFailure := some "destroy rejected" }

/-- A registry holding the failing-teardown client under id D. -/
def failRegistry : Registry := [("D", failClient)]

/-- Starting with one's own prefix: `l ++ r` starts with `l`. -/
theorem startsWithL_append (l r : List Char) : startsWithL (l ++ r) l = true := by
  induction l with
  | nil => simp [startsWithL]
  | cons c t ih => simp [startsWithL, ih]

/-- A list contains each of its suffixes. -/
theorem containsL_append_self (pre l : List Char) : containsL (pre ++ l) l = true := by
  induction pre with
  | nil =>
    cases l with
    | nil => rfl
    | cons c t =>
      have h := startsWithL_append (c :: t) []
      rw [List.append_nil] at h
      simp [containsL, h]
  | cons x p ih => simp [containsL, ih]

/-- Appending the canonical suffix makes `includes` succeed. -/
theorem strIncludes_append_suffix (a : String) :
    strIncludes (a ++ "@c.us") "@c.us" = true := by
  unfold strIncludes
  rw [show (a ++ "@c.us").toList = a.toList ++ "@c.us".toList from rfl]
  exact containsL_append_self a.toList "@c.us".toList

/-- A string with the canonical suffix appended is never falsy. -/
theorem strFalsy_append_suffix (a : String) : strFalsy (a ++ "@c.us") = false := by
  unfold strFalsy
  rw [show (a ++ "@c.us").toList = a.toList ++ "@c.us".toList from rfl]
  cases a.toList with
  | nil => rfl
  | cons c t => rfl

/-- The normalization leaves an address containing the suffix unchanged. -/
theorem formattedNumber_included (a : String) (h : strIncludes a "@c.us" = true) :
    formattedNumber a = a := by
  simp [formattedNumber, h]

/-- The normalization appends to an address not containing the suffix. -/
theorem formattedNumber_not_included (a : String) (h : strIncludes a "@c.us" = false) :
    formattedNumber a = a ++ "@c.us" := by
  simp [formattedNumber, h]

/-- The normalization is idempotent. -/
theorem formattedNumber_idem (a : String) :
    formattedNumber (formattedNumber a) = formattedNumber a := by
  cases h : strIncludes a "@c.us" with
  | true => simp [formattedNumber, h]
  | false => simp [formattedNumber, h, strIncludes_append_suffix]

/-- Lookup after set at the same key. -/
theorem mapGet_mapSet_self {α : Type} (m : List (String × α)) (x : String) (v : α) :
    mapGet (mapSet m x v) x = some v := by
  induction m with
  | nil => simp [mapSet, mapGet]
  | cons p t ih =>
    obtain ⟨k, w⟩ := p
    by_cases h : k = x
    · subst h
      simp [mapSet, mapGet]
    · simp [mapSet, mapGet, h, ih]

/-- Membership after set at the same key. -/
theorem mapHas_mapSet_self {α : Type} (m : List (String × α)) (x : String) (v : α) :
    mapHas (mapSet m x v) x = true := by
  simp [mapHas, mapGet_mapSet_self]

/-- Setting an absent key stores it exactly once. -/
theorem countKey_mapSet_absent {α : Type} (m : List (String × α)) (x : String) (v : α)
    (h : mapGet m x = none) : countKey (mapSet m x v) x = 1 := by
  induction m with
  | nil => simp [mapSet, countKey]
  | cons p t ih =>
    obtain ⟨k, w⟩ := p
    by_cases hk : k = x
    · subst hk
      simp [mapGet] at h
    · have ht : mapGet t x = none := by simpa [mapGet, hk] using h
      simp [mapSet, hk, countKey, List.filter_cons]
      exact ih ht

/-- C1: the `create_session` handler of each variant performs the existence
check and the insert as one synchronous step (embedded as a single step
function), so for any registry not containing id x, the first create
inserts its client, the second create for the same x takes the
already-exists branch, leaves the registry unchanged, keeps the first
client's engine handle (the stored client is still the first one), and the
registry holds exactly one entry for x; in variant 1 the second caller is
additionally signalled with the duplicate-session error event. -/
theorem create_session_race_free (m : Registry) (x : String) (c₁ c₂ : WClient)
    (hx : mapHas m x = false) :
    ((createSessionV1 c₁ m x).2.1 = CreateOutcome.created ∧
      (createSessionV1 c₁ m x).1 = mapSet m x c₁) ∧
    ((createSessionV1 c₂ (createSessionV1 c₁ m x).1 x).2.1 = CreateOutcome.alreadyExists ∧
      (createSessionV1 c₂ (createSessionV1 c₁ m x).1 x).1 = (createSessionV1 c₁ m x).1 ∧
      SockEvent.named ("error_" ++ x ++ "_Session already exists") ∈
        (createSessionV1 c₂ (createSessionV1 c₁ m x).1 x).2.2 ∧
      mapGet (createSessionV1 c₂ (createSessionV1 c₁ m x).1 x).1 x = some c₁ ∧
      countKey (createSessionV1 c₂ (createSessionV1 c₁ m x).1 x).1 x = 1) ∧
    ((createSessionV2 c₁ m x).2.1 = CreateOutcome.created ∧
      (createSessionV2 c₁ m x).1 = mapSet m x c₁) ∧
    ((createSessionV2 c₂ (createSessionV2 c₁ m x).1 x).2.1 = CreateOutcome.alreadyExists ∧
      (createSessionV2 c₂ (createSessionV2 c₁ m x).1 x).1 = (createSessionV2 c₁ m x).1 ∧
      mapGet (createSessionV2 c₂ (createSessionV2 c₁ m x).1 x).1 x = some c₁ ∧
      countKey (createSessionV2 c₂ (createSessionV2 c₁ m x).1 x).1 x = 1) := by
  have hnone : mapGet m x = none := by
    cases hg : mapGet m x with
    | none => rfl
    | some c => simp [mapHas, hg] at hx
  refine ⟨⟨?_, ?_⟩, ⟨?_, ?_, ?_, ?_, ?_⟩, ⟨?_, ?_⟩, ⟨?_, ?_, ?_, ?_⟩⟩ <;>
    simp [createSessionV1, createSessionV2, hx, mapHas_mapSet_self, mapGet_mapSet_self,
      countKey_mapSet_absent m x _ hnone]

/-- C1 witness: on the empty registry, two creates for id A leave exactly
one entry for A and the second one takes the already-exists branch. -/
theorem create_session_race_free_witness :
    mapHas ([] : Registry) "A" = false ∧
    (createSessionV1 demoFresh2 (createSessionV1 demoFresh [] "A").1 "A").2.1 =
      CreateOutcome.alreadyExists ∧
    countKey (createSessionV1 demoFresh2 (createSessionV1 demoFresh [] "A").1 "A").1 "A" = 1 :=
  ⟨rfl,
   (create_session_race_free [] "A" demoFresh demoFresh2 rfl).2.1.1,
   (create_session_race_free [] "A" demoFresh demoFresh2 rfl).2.1.2.2.2.2⟩

/-- C2 counterexample: in variant 2 a disconnect with the non-terminal
reason NAVIGATION removes the session from the registry, although the
claim says any reason other than LOGOUT or UNPAIRED leaves it present. -/
theorem disconnect_nonterminal_cex :
    "NAVIGATION" ≠ "LOGOUT" ∧ "NAVIGATION" ≠ "UNPAIRED" ∧
    mapHas demoRegistry "A" = true ∧
    mapHas (disconnectedHandlerV2 demoRegistry "A" "NAVIGATION").1 "A" = false :=
  ⟨by decide, by decide, rfl, rfl⟩

/-- C2 amended: in variant 1, a disconnect with reason LOGOUT or UNPAIRED
deletes the registry entry and any other reason leaves the registry
unchanged, the reason always being published; in variant 2 every
disconnect reason deletes the registry entry, the reason being published. -/
theorem disconnect_handlers (m : Registry) (x reason : String) :
    (reason = "LOGOUT" ∨ reason = "UNPAIRED" →
        (disconnectedHandlerV1 m x reason).1 = mapDelete m x) ∧
    (reason ≠ "LOGOUT" → reason ≠ "UNPAIRED" →
        (disconnectedHandlerV1 m x reason).1 = m) ∧
    (disconnectedHandlerV1 m x reason).2 =
      [SockEvent.withPayload ("disconnected_" ++ x) reason] ∧
    (disconnectedHandlerV2 m x reason).1 = mapDelete m x ∧
    (disconnectedHandlerV2 m x reason).2 =
      [SockEvent.withPayload ("disconnected_" ++ x) reason] := by
  refine ⟨?_, ?_, rfl, rfl, rfl⟩
  · rintro (h | h) <;> simp [disconnectedHandlerV1, h]
  · intro h1 h2
    simp [disconnectedHandlerV1, h1, h2]

/-- C2 witness: a NAVIGATION disconnect in variant 1 leaves the registry
unchanged. -/
theorem disconnect_handlers_witness :
    (disconnectedHandlerV1 demoRegistry "A" "NAVIGATION").1 = demoRegistry :=
  (disconnect_handlers demoRegistry "A" "NAVIGATION").2.1 (by decide) (by decide)

/-- C3 counterexample: in variant 2 a duplicate create for an existing and
ready session emits no event at all to the requester — neither the
already-exists signal nor the ready event — although the registry is
unchanged. -/
theorem duplicate_create_v2_silent_cex :
    mapGet demoRegistry "A" = some demoClient ∧
    demoClient.info.isSome = true ∧
    (createSessionV2 demoFresh demoRegistry "A").2.2 = [] ∧
    (createSessionV2 demoFresh demoRegistry "A").1 = demoRegistry :=
  ⟨rfl, rfl, rfl, rfl⟩

/-- C3 amended: a duplicate create leaves the registry unchanged in both
variants; in variant 1 it emits the duplicate-session error event and, when
the existing client has reached ready (info set), also the ready event; in
variant 2 it emits nothing to the requester. -/
theorem duplicate_create_behaviour (m : Registry) (x : String) (c cNew : WClient)
    (h : mapGet m x = some c) :
    (createSessionV1 cNew m x).1 = m ∧
    (createSessionV1 cNew m x).2.1 = CreateOutcome.alreadyExists ∧
    SockEvent.named ("error_" ++ x ++ "_Session already exists") ∈
      (createSessionV1 cNew m x).2.2 ∧
    (c.info.isSome = true →
      SockEvent.named ("ready_" ++ x) ∈ (createSessionV1 cNew m x).2.2) ∧
    (createSessionV2 cNew m x).1 = m ∧
    (createSessionV2 cNew m x).2.1 = CreateOutcome.alreadyExists ∧
    (createSessionV2 cNew m x).2.2 = [] := by
  have hh : mapHas m x = true := by simp [mapHas, h]
  refine ⟨?_, ?_, ?_, ?_, ?_, ?_, ?_⟩
  · simp [createSessionV1, hh]
  · simp [createSessionV1, hh]
  · simp [createSessionV1, hh]
  · intro hi
    simp [createSessionV1, hh, h, hi]
  · simp [createSessionV2, hh]
  · simp [createSessionV2, hh]
  · simp [createSessionV2, hh]

/-- C3 witness: a duplicate create for the existing ready session A in
variant 1 emits the duplicate-session error event. -/
theorem duplicate_create_behaviour_witness :
    SockEvent.named ("error_" ++ "A" ++ "_Session already exists") ∈
      (createSessionV1 demoFresh demoRegistry "A").2.2 :=
  (duplicate_create_behaviour demoRegistry "A" demoClient demoFresh rfl).2.2.1

/-- C4: for non-empty fields, the send-message endpoint answers NotFound
when the client id is unknown, NotReady when the client has no info yet,
the engine failure reason when the engine send rejects, and the message id
on success. -/
theorem send_message_error_cases (m : Registry) (clientId toAddr msg : String)
    (h1 : strFalsy clientId = false) (h2 : strFalsy toAddr = false)
    (h3 : strFalsy msg = false) :
    (mapGet m clientId = none →
      sendMessageHandler m clientId toAddr msg = SendResponse.notFoundErr) ∧
    (∀ c, mapGet m clientId = some c → c.info = none →
      sendMessageHandler m clientId toAddr msg = SendResponse.notReadyErr) ∧
    (∀ c i r, mapGet m clientId = some c → c.info = some i →
      c.engineSend (formattedNumber toAddr) msg = EngineSendResult.sendError r →
      sendMessageHandler m clientId toAddr msg = SendResponse.sendFailure r) ∧
    (∀ c i mid, mapGet m clientId = some c → c.info = some i →
      c.engineSend (formattedNumber toAddr) msg = EngineSendResult.sendOk mid →
      sendMessageHandler m clientId toAddr msg = SendResponse.sent mid) := by
  refine ⟨?_, ?_, ?_, ?_⟩
  · intro h
    simp [sendMessageHandler, h1, h2, h3, h]
  · intro c hc hi
    simp [sendMessageHandler, h1, h2, h3, hc, hi]
  · intro c i r hc hi he
    simp [sendMessageHandler, h1, h2, h3, hc, hi, he]
  · intro c i mid hc hi he
    simp [sendMessageHandler, h1, h2, h3, hc, hi, he]

/-- C4 witness: the four cases at concrete inputs — unknown id B on the
empty registry gives NotFound, fresh (not ready) client gives NotReady, and
the ready demo client gives the engine message id. -/
theorem send_message_error_cases_witness :
    sendMessageHandler [] "B" "1555@c.us" "hi" = SendResponse.notFoundErr ∧
    sendMessageHandler [("B", demoFresh)] "B" "1555@c.us" "hi" = SendResponse.notReadyErr ∧
    sendMessageHandler demoRegistry "A" "1555" "hi" = SendResponse.sent "mid-1" :=
  ⟨(send_message_error_cases [] "B" "1555@c.us" "hi" rfl rfl rfl).1 rfl,
   (send_message_error_cases [("B", demoFresh)] "B" "1555@c.us" "hi" rfl rfl rfl).2.1
     demoFresh rfl rfl,
   (send_message_error_cases demoRegistry "A" "1555" "hi" rfl rfl rfl).2.2.2
     demoClient { user := "19995550100" } "mid-1" rfl rfl rfl⟩

/-- C5 counterexample: the DELETE endpoint calls the engine teardown with no
rejection handler attached, so for a client whose destroy() rejects the
failure is not logged (it is an unhandled rejection), although the entry is
still removed and the caller still gets the success response. -/
theorem destroy_endpoint_unlogged_cex :
    failClient.destroyFailure.isSome = true ∧
    mapHas (deleteSessionEndpoint failRegistry "D").1 "D" = false ∧
    (deleteSessionEndpoint failRegistry "D").2.2.failureLogged = false ∧
    (deleteSessionEndpoint failRegistry "D").2.2.unhandledFailure = true :=
  ⟨rfl, rfl, rfl, rfl⟩

/-- C5 amended: over every removal-triggering branch, a rejecting engine
teardown never reaches the caller and never prevents the registry entry
from being removed; the variant-1 engine-event branches (auth failure,
retry exhaustion, initialization error) log the rejection through their
attached catch handler, but the explicit DELETE endpoint attaches no
handler, so there the rejection is unlogged and unhandled. -/
theorem teardown_best_effort (m : Registry) (x : String) (c : WClient)
    (hc : mapGet m x = some c) (hf : c.destroyFailure.isSome = true) :
    (deleteSessionEndpoint m x).1 = mapDelete m x ∧
    (deleteSessionEndpoint m x).2.1 = { status := 200, success := true, error := none } ∧
    (deleteSessionEndpoint m x).2.2 =
      { teardownAttempted := true, failureLogged := false, unhandledFailure := true } ∧
    (authFailureHandlerV1 m x c).1 = mapDelete m x ∧
    (authFailureHandlerV1 m x c).2.2 =
      { teardownAttempted := true, failureLogged := true, unhandledFailure := false } ∧
    (qrMaxRetriesHandlerV1 m x c).1 = mapDelete m x ∧
    (qrMaxRetriesHandlerV1 m x c).2.2 =
      { teardownAttempted := true, failureLogged := true, unhandledFailure := false } ∧
    (initErrorHandlerV1 m x c).1 = mapDelete m x ∧
    (initErrorHandlerV1 m x c).2.2 =
      { teardownAttempted := true, failureLogged := true, unhandledFailure := false } := by
  refine ⟨?_, ?_, ?_, rfl, ?_, rfl, ?_, rfl, ?_⟩ <;>
    simp [deleteSessionEndpoint, authFailureHandlerV1, qrMaxRetriesHandlerV1,
      initErrorHandlerV1, hc, hf]

/-- C5 witness: the registered client D with rejecting teardown — removal
completes, the caller sees success, the rejection is unhandled. -/
theorem teardown_best_effort_witness :
    mapGet failRegistry "D" = some failClient ∧
    (deleteSessionEndpoint failRegistry "D").2.2 =
      { teardownAttempted := true, failureLogged := false, unhandledFailure := true } :=
  ⟨rfl, (teardown_best_effort failRegistry "D" failClient rfl rfl).2.2.1⟩

/-- C6 counterexample: in variant 2 an initialization failure for the
registered session D leaves the session in the registry and attempts no
engine teardown; only the error event is emitted. -/
theorem init_error_v2_not_removed_cex :
    mapHas (initErrorHandlerV2 failRegistry "D" failClient).1 "D" = true ∧
    (initErrorHandlerV2 failRegistry "D" failClient).2.2.teardownAttempted = false ∧
    (initErrorHandlerV2 failRegistry "D" failClient).2.1 =
      [SockEvent.withPayload ("error_" ++ "D") "Failed to initialize WhatsApp client"] :=
  ⟨rfl, rfl, rfl⟩

/-- C6 amended: when initialization fails, variant 1 removes the session
from the registry, publishes the error event scoped to its id and attempts
the engine teardown (logging a rejection); variant 2 only publishes the
error event — the session stays registered and no teardown is attempted. -/
theorem init_error_handlers (m : Registry) (x : String) (c : WClient) :
    (initErrorHandlerV1 m x c).1 = mapDelete m x ∧
    SockEvent.withPayload ("error_" ++ x) "Failed to initialize WhatsApp client" ∈
      (initErrorHandlerV1 m x c).2.1 ∧
    (initErrorHandlerV1 m x c).2.2.teardownAttempted = true ∧
    (initErrorHandlerV1 m x c).2.2.failureLogged = c.destroyFailure.isSome ∧
    (initErrorHandlerV2 m x c).1 = m ∧
    SockEvent.withPayload ("error_" ++ x) "Failed to initialize WhatsApp client" ∈
      (initErrorHandlerV2 m x c).2.1 ∧
    (initErrorHandlerV2 m x c).2.2.teardownAttempted = false := by
  refine ⟨rfl, ?_, rfl, rfl, rfl, ?_, rfl⟩ <;> simp [initErrorHandlerV1, initErrorHandlerV2]

/-- C7: the DELETE endpoint for an id absent from the registry answers 404
with success false and changes nothing: the registry is returned as it
was and no teardown is attempted. -/
theorem destroy_absent_not_found (m : Registry) (x : String) (h : mapGet m x = none) :
    deleteSessionEndpoint m x =
      (m, { status := 404, success := false, error := some "Session not found" },
        { teardownAttempted := false, failureLogged := false, unhandledFailure := false }) := by
  simp [deleteSessionEndpoint, h]

/-- C7 witness: destroying the absent id C on the empty registry. -/
theorem destroy_absent_not_found_witness :
    mapGet ([] : Registry) "C" = none ∧
    deleteSessionEndpoint [] "C" =
      ([], { status := 404, success := false, error := some "Session not found" },
        { teardownAttempted := false, failureLogged := false, unhandledFailure := false }) :=
  ⟨rfl, destroy_absent_not_found [] "C" rfl⟩

/-- Lookup in the sessions listing is the status of the looked-up client. -/
theorem mapGet_listSessions (m : Registry) (x : String) :
    mapGet (listSessions m) x =
      (mapGet m x).map (fun c => if c.info.isSome then "connected" else "disconnected") := by
  induction m with
  | nil => rfl
  | cons p t ih =>
    by_cases h : p.1 = x
    · simp [listSessions, mapGet, h]
    · simp only [listSessions, List.map_cons] at ih ⊢
      simp [mapGet, h, ih]

/-- The sessions listing lists exactly the registry keys, in order. -/
theorem listSessions_keys (m : Registry) :
    (listSessions m).map Prod.fst = m.map Prod.fst := by
  induction m with
  | nil => rfl
  | cons p t ih =>
    simp only [listSessions, List.map_cons] at ih ⊢
    simp [ih]

/-- C8: the sessions listing has exactly one entry per registered id (same
keys in the same order), reports connected exactly for clients whose info
is set and disconnected otherwise, and after creating B followed by the
engine's ready transition the listing reports B as connected. -/
theorem list_sessions_spec (m : Registry) :
    (listSessions m).map Prod.fst = m.map Prod.fst ∧
    (∀ x c, mapGet m x = some c →
      mapGet (listSessions m) x =
        some (if c.info.isSome then "connected" else "disconnected")) ∧
    (∀ x, mapGet m x = none → mapGet (listSessions m) x = none) ∧
    listSessions
        (engineSetInfo (createSessionV1 demoFresh [] "B").1 "B" { user := "15551230000" }) =
      [("B", "connected")] := by
  refine ⟨listSessions_keys m, ?_, ?_, rfl⟩
  · intro x c h
    rw [mapGet_listSessions, h]
    rfl
  · intro x h
    rw [mapGet_listSessions, h]
    rfl

/-- C8 witness: the ready demo client A is listed as connected. -/
theorem list_sessions_spec_witness :
    mapGet (listSessions demoRegistry) "A" =
      some (if demoClient.info.isSome then "connected" else "disconnected") :=
  (list_sessions_spec demoRegistry).2.1 "A" demoClient rfl

/-- C9 counterexample: the recipient 15@c.usy lacks the canonical suffix,
yet sending to it and to 15@c.usy@c.us are not the same call: the
normalization is a containment test, so 15@c.usy is passed through
unchanged while 15@c.usy@c.us is a different engine recipient, and the
picky engine answers them differently. -/
theorem send_suffix_transparent_cex :
    strEndsWith "15@c.usy" "@c.us" = false ∧
    sendMessageHandler pickyRegistry "P" "15@c.usy" "hi" = SendResponse.sent "mid-2" ∧
    sendMessageHandler pickyRegistry "P" ("15@c.usy" ++ "@c.us") "hi" =
      SendResponse.sendFailure "invalid recipient" ∧
    sendMessageHandler pickyRegistry "P" "15@c.usy" "hi" ≠
      sendMessageHandler pickyRegistry "P" ("15@c.usy" ++ "@c.us") "hi" := by
  refine ⟨by decide, rfl, rfl, ?_⟩
  intro h
  rw [show sendMessageHandler pickyRegistry "P" "15@c.usy" "hi" =
        SendResponse.sent "mid-2" from rfl,
      show sendMessageHandler pickyRegistry "P" ("15@c.usy" ++ "@c.us") "hi" =
        SendResponse.sendFailure "invalid recipient" from rfl] at h
  cases h

/-- C9 amended: for every non-empty recipient that does not contain
"@c.us" anywhere, sending to it and to it with the canonical suffix
appended yield the same result. -/
theorem send_suffix_transparent (m : Registry) (clientId toAddr msg : String)
    (hto : strFalsy toAddr = false) (hni : strIncludes toAddr "@c.us" = false) :
    sendMessageHandler m clientId toAddr msg =
      sendMessageHandler m clientId (toAddr ++ "@c.us") msg := by
  unfold sendMessageHandler
  rw [hto, strFalsy_append_suffix toAddr,
    formattedNumber_not_included toAddr hni,
    formattedNumber_included (toAddr ++ "@c.us") (strIncludes_append_suffix toAddr)]

/-- C9 witness: sending to 1555 and to 1555@c.us are the same call. -/
theorem send_suffix_transparent_witness :
    strIncludes "1555" "@c.us" = false ∧
    sendMessageHandler demoRegistry "A" "1555" "hi" =
      sendMessageHandler demoRegistry "A" ("1555" ++ "@c.us") "hi" :=
  ⟨by decide, send_suffix_transparent demoRegistry "A" "1555" "hi" rfl (by decide)⟩

/-- C10: the normalization shared by the send endpoint, the chat-history
endpoint and the inbound republication appends the canonical suffix exactly
when the address does not contain "@c.us" anywhere (a containment test, so
an address containing it in a non-suffix position passes through
unchanged), and the normalization is idempotent on every input. -/
theorem normalization_containment (a : String) :
    (strIncludes a "@c.us" = true → formattedNumber a = a) ∧
    (strIncludes a "@c.us" = false → formattedNumber a = a ++ "@c.us") ∧
    formattedNumber (formattedNumber a) = formattedNumber a ∧
    historyFormattedNumber a = formattedNumber a ∧
    inboundPhoneNumber a = formattedNumber a :=
  ⟨formattedNumber_included a, formattedNumber_not_included a,
   formattedNumber_idem a, rfl, rfl⟩

/-- C10 witness: 15@c.usy contains "@c.us" in a non-suffix position and is
passed through unchanged. -/
theorem normalization_containment_witness :
    strIncludes "15@c.usy" "@c.us" = true ∧
    strEndsWith "15@c.usy" "@c.us" = false ∧
    formattedNumber "15@c.usy" = "15@c.usy" :=
  ⟨by decide, by decide, (normalization_containment "15@c.usy").1 (by decide)⟩
